import Mathlib

/-!
Verification of the orchestration kernel of `post5-dspy-orchestration-tool-sprawl.py`
(`ScoutOrchestrator.forward`): plan validation/repair, registry routing, the
sequential execution loop with context threading, and answer synthesis.

The external reasoning collaborators (the LLM-backed Planner and the per-intent
agents) are modelled as parameters: a raw plan is an input list of `RawStep`
(a dict that may lack keys), and each agent is an abstract `Handler` function
that either returns an answer string or fails (a Python exception is modelled
as `Except.error`).
-/

/-- One step of an execution plan (the `PlanStep` dataclass in the source). -/
structure PlanStep where
  subquery : String
  intent : String
deriving DecidableEq

/-- A raw plan step as produced by the external Planner: an untrusted dict whose
`subquery` and `intent` keys may be absent (`step_dict.get` in the source). -/
structure RawStep where
  subquery : Option String
  intent : Option String
deriving DecidableEq

/-- Python `str.lower()` applied characterwise, as in `step_dict.get("intent", "search").lower()`. -/
def strLower (s : String) : String := ⟨s.data.map Char.toLower⟩

/-- Python `str.upper()` applied characterwise, as in `sr['step'].intent.upper()`. -/
def strUpper (s : String) : String := ⟨s.data.map Char.toUpper⟩

/-- The keys of the orchestrator's agent registry `self.agents`
(`{"search": ..., "retrieve": ..., "analyze": ...}`). -/
def registryKeys : List String := ["search", "retrieve", "analyze"]

/-- The intent the validation pass falls back to (the literal `"search"` in
`forward`, both for a missing intent key and for an unknown intent). -/
def defaultIntent : String := "search"

/-- Validation/repair of one raw step (the body of the first loop in `forward`):
`intent = step_dict.get("intent", "search").lower()`; if the intent is not a key
of the registry it becomes `"search"`; the subquery is
`step_dict.get("subquery", question)`. -/
def validateStep (question : String) (rs : RawStep) : PlanStep :=
  let intent0 := strLower (rs.intent.getD defaultIntent)
  { subquery := rs.subquery.getD question,
    intent := if intent0 ∈ registryKeys then intent0 else defaultIntent }

/-- Validation/repair of a whole raw plan (the first loop of `forward` plus the
`if not steps` fallback): repair every raw step, and if the result is empty,
use the single fallback step `PlanStep(subquery=question, intent="search")`. -/
def validate (question : String) (raw : List RawStep) : List PlanStep :=
  let steps := raw.map (validateStep question)
  if steps.isEmpty then [{ subquery := question, intent := defaultIntent }] else steps

/-- An agent: takes the step's subquery and the accumulated context and either
answers or raises (the source's `agent(question=step.subquery, context=...)`). -/
abbrev Handler := String → String → Except Unit String

/-- The agent registry `self.agents`, with the three LLM-backed agents abstracted
as `Handler` parameters; its keys are exactly `registryKeys`. -/
def mkAgents (hs hr ha : Handler) : List (String × Handler) :=
  [("search", hs), ("retrieve", hr), ("analyze", ha)]

/-- One entry of the result log (`{"step_id": i, "step": step, "answer": result.answer}`). -/
structure StepResult where
  step_id : Nat
  step : PlanStep
  answer : String
deriving DecidableEq

/-- How an execution-loop iteration can fail: `keyError` models the Python
`KeyError` of `self.agents[step.intent]`, `handlerError` models an exception
raised by the agent call (the source has no try/except around either). -/
inductive OrchError where
  | keyError
  | handlerError
deriving DecidableEq

/-- The labeled rendering appended to the accumulated context after each step:
`f"\nStep {i} ({step.intent}): {result.answer}\n"`. -/
def renderStep (i : Nat) (intent answer : String) : String :=
  "\nStep " ++ toString i ++ " (" ++ intent ++ "): " ++ answer ++ "\n"

/-- The execution loop of `forward`: for each step in order, look the intent up
in the registry (`self.agents[step.intent]`), call the agent with the step's
subquery and the accumulated context, record a `StepResult`, and extend the
context with `renderStep`.  The `String` paired with each `StepResult` is a
ghost record of the context snapshot that was passed to that step's handler
(the source threads `accumulated_context` but does not store it).  Any failure
propagates, exactly as an uncaught Python exception would. -/
def execLoop (registry : List (String × Handler)) :
    List PlanStep → Nat → String → Except OrchError (List (StepResult × String) × String)
  | [], _, ctx => .ok ([], ctx)
  | step :: rest, i, ctx =>
    match List.lookup step.intent registry with
    | none => .error .keyError
    | some agent =>
      match agent step.subquery ctx with
      | .error _ => .error .handlerError
      | .ok ans =>
        match execLoop registry rest (i + 1) (ctx ++ renderStep i step.intent ans) with
        | .error e => .error e
        | .ok (log, finalCtx) => .ok ((⟨i, step, ans⟩, ctx) :: log, finalCtx)

/-- The synthesis step of `forward`: one result returns its answer unchanged;
otherwise each result is rendered as `f"**{intent.upper()}**: {answer}"` and the
renderings are joined with `"\n\n"`. -/
def synthesize (results : List StepResult) : String :=
  match results with
  | [r] => r.answer
  | rs =>
    String.intercalate "\n\n"
      (rs.map fun sr => "**" ++ strUpper sr.step.intent ++ "**: " ++ sr.answer)

/-- The value returned by `forward` (`dspy.Prediction(answer=..., plan=..., step_results=...)`). -/
structure Prediction where
  answer : String
  plan : List PlanStep
  step_results : List StepResult
deriving DecidableEq

/-- `ScoutOrchestrator.forward` with the Planner output (`rawPlan`) and the
agents (`registry`) as parameters: validate/repair, execute the loop, synthesize. -/
def forward (registry : List (String × Handler)) (rawPlan : List RawStep) (question : String) :
    Except OrchError Prediction :=
  let steps := validate question rawPlan
  match execLoop registry steps 0 "" with
  | .error e => .error e
  | .ok (log, _) =>
    .ok { answer := synthesize (log.map Prod.fst),
          plan := steps,
          step_results := log.map Prod.fst }

/-- The concatenation, in order, of the labeled renderings of a result-log
fragment; used to state the context-threading invariant. -/
def concatRenders (log : List (StepResult × String)) : String :=
  log.foldr (fun p acc => renderStep p.1.step_id p.1.step.intent p.1.answer ++ acc) ""

/-- A deterministic stub agent that always answers, used to instantiate theorems. -/
def okH (tag : String) : Handler := fun q _ => .ok (tag ++ ": " ++ q)

/-- A stub agent that always raises, used to instantiate failure theorems. -/
def failH : Handler := fun _ _ => .error ()

/-- Every repaired step's intent is a key of the registry. -/
lemma validateStep_intent_mem (q : String) (rs : RawStep) :
    (validateStep q rs).intent ∈ registryKeys := by
  by_cases hc : strLower (rs.intent.getD defaultIntent) ∈ registryKeys
  · simp [validateStep, hc]
  · simp [validateStep, hc]
    decide

/-- Every step of a validated plan has an intent that is a key of the registry. -/
lemma validate_intent_mem (q : String) (raw : List RawStep) :
    ∀ s ∈ validate q raw, s.intent ∈ registryKeys := by
  intro s hs
  simp only [validate] at hs
  split at hs
  · simp only [List.mem_singleton] at hs
    subst hs
    show defaultIntent ∈ registryKeys
    decide
  · obtain ⟨r, _, rfl⟩ := List.mem_map.mp hs
    exact validateStep_intent_mem q r

/-- A validated plan is never empty. -/
lemma validate_ne_nil (q : String) (raw : List RawStep) : validate q raw ≠ [] := by
  simp only [validate]
  split
  · simp
  · next h =>
    intro hn
    exact h (by simp [hn])

/-- Claim C1: for every raw plan (empty, with missing keys, blank subqueries or
unknown intents), the validation/repair pass yields a non-empty plan in which
every step's intent is a key of the agent registry; the pass is a total
function, so it never fails. -/
theorem c1_validate_total_wellformed (q : String) (raw : List RawStep) :
    validate q raw ≠ [] ∧ ∀ s ∈ validate q raw, s.intent ∈ registryKeys :=
  ⟨validate_ne_nil q raw, validate_intent_mem q raw⟩

/-- Witness for C1 at a concrete degenerate raw plan (missing subquery, unknown intent). -/
theorem c1_witness :
    validate "Q" [{ subquery := none, intent := some "BOGUS" }] ≠ [] :=
  (c1_validate_total_wellformed "Q" [{ subquery := none, intent := some "BOGUS" }]).1

/-- Claim C6 (counterexample): `"RETRIEVE"` is not a key of the registry, yet the
repaired step's intent is `"retrieve"`, not the default intent `"search"` —
because validation lowercases before the membership check. -/
theorem c6_counterexample :
    "RETRIEVE" ∉ registryKeys ∧
    (validateStep "Q" { subquery := some "q", intent := some "RETRIEVE" }).intent = "retrieve" ∧
    (validateStep "Q" { subquery := some "q", intent := some "RETRIEVE" }).intent ≠ defaultIntent := by
  decide

/-- Claim C6 (amended): for every raw step whose intent, after lowercasing, is
not a key of the registry, the repaired step's intent equals the configured
default intent and its subquery (when present) is preserved unchanged. -/
theorem c6_unknown_intent_defaulted (q : String) (rs : RawStep)
    (h : strLower (rs.intent.getD defaultIntent) ∉ registryKeys) :
    (validateStep q rs).intent = defaultIntent ∧
    ∀ s, rs.subquery = some s → (validateStep q rs).subquery = s := by
  refine ⟨?_, ?_⟩
  · simp [validateStep, h]
  · intro s hs
    simp [validateStep, hs]

/-- Witness for C6 (amended) at a concrete unknown intent. -/
theorem c6_witness :
    (validateStep "Q" { subquery := some "q", intent := some "summarize" }).intent = defaultIntent ∧
    (validateStep "Q" { subquery := some "q", intent := some "summarize" }).subquery = "q" :=
  ⟨(c6_unknown_intent_defaulted "Q" { subquery := some "q", intent := some "summarize" } (by decide)).1,
   (c6_unknown_intent_defaulted "Q" { subquery := some "q", intent := some "summarize" } (by decide)).2 "q" rfl⟩

/-- Claim C7 (counterexample): a present-but-blank subquery is kept as the empty
string; it is not replaced by the original question `"Q"`. -/
theorem c7_counterexample :
    (validateStep "Q" { subquery := some "", intent := some "search" }).subquery = "" ∧
    (validateStep "Q" { subquery := some "", intent := some "search" }).subquery ≠ "Q" := by
  decide

/-- Claim C7 (amended): only a missing subquery key is replaced by the original
user question; a present subquery — even blank or whitespace-only — is
preserved unchanged. -/
theorem c7_missing_subquery_replaced (q : String) (rs : RawStep) :
    (rs.subquery = none → (validateStep q rs).subquery = q) ∧
    (∀ s, rs.subquery = some s → (validateStep q rs).subquery = s) := by
  refine ⟨?_, ?_⟩
  · intro h
    simp [validateStep, h]
  · intro s hs
    simp [validateStep, hs]

/-- Witness for C7 (amended): a missing subquery becomes the question, a
whitespace-only subquery is preserved. -/
theorem c7_witness :
    (validateStep "Q" { subquery := none, intent := some "search" }).subquery = "Q" ∧
    (validateStep "Q" { subquery := some "  ", intent := some "search" }).subquery = "  " :=
  ⟨(c7_missing_subquery_replaced "Q" { subquery := none, intent := some "search" }).1 rfl,
   (c7_missing_subquery_replaced "Q" { subquery := some "  ", intent := some "search" }).2 "  " rfl⟩

/-- Claim C8: validating an empty raw plan yields exactly one step, whose
subquery is the original user question and whose intent is the default intent. -/
theorem c8_empty_plan_fallback (q : String) :
    validate q [] = [{ subquery := q, intent := defaultIntent }] := rfl

/-- Witness for C8 at a concrete question. -/
theorem c8_witness :
    validate "Q" [] = [{ subquery := "Q", intent := defaultIntent }] :=
  c8_empty_plan_fallback "Q"

/-- Claim C10: validation lowercases the raw intent before the registry check,
so a case-variant spelling of a registered intent is kept (in lowercase form)
rather than defaulted, while an intent unknown even after lowercasing becomes
the default intent. -/
theorem c10_intent_lowercased (q : String) (rs : RawStep) (s : String)
    (h : rs.intent = some s) :
    (strLower s ∈ registryKeys → (validateStep q rs).intent = strLower s) ∧
    (strLower s ∉ registryKeys → (validateStep q rs).intent = defaultIntent) := by
  refine ⟨?_, ?_⟩
  · intro hm
    simp [validateStep, h, hm]
  · intro hm
    simp [validateStep, h, hm]

/-- Witness for C10: `"RETRIEVE"` is kept as `"retrieve"`, `"Summarize"` becomes the default. -/
theorem c10_witness :
    (validateStep "Q" { subquery := some "q", intent := some "RETRIEVE" }).intent = strLower "RETRIEVE" ∧
    (validateStep "Q" { subquery := some "q", intent := some "Summarize" }).intent = defaultIntent :=
  ⟨(c10_intent_lowercased "Q" { subquery := some "q", intent := some "RETRIEVE" } "RETRIEVE" rfl).1 (by decide),
   (c10_intent_lowercased "Q" { subquery := some "q", intent := some "Summarize" } "Summarize" rfl).2 (by decide)⟩

/-- Looking a registry key up in the agent registry always succeeds. -/
lemma lookup_mkAgents_isSome (hs hr ha : Handler) (name : String)
    (h : name ∈ registryKeys) :
    (List.lookup name (mkAgents hs hr ha)).isSome = true := by
  simp only [registryKeys, List.mem_cons, List.not_mem_nil, or_false] at h
  rcases h with rfl | rfl | rfl
  · rfl
  · rfl
  · rfl

/-- If every step's intent resolves in the registry, the execution loop never
fails with a `KeyError`. -/
lemma execLoop_no_keyError (reg : List (String × Handler)) (steps : List PlanStep)
    (h : ∀ s ∈ steps, (List.lookup s.intent reg).isSome = true) :
    ∀ (i : Nat) (ctx : String), execLoop reg steps i ctx ≠ Except.error OrchError.keyError := by
  induction steps with
  | nil =>
    intro i ctx hcon
    simp [execLoop] at hcon
  | cons step rest ih =>
    intro i ctx hcon
    have h1 := h step (List.mem_cons_self _ _)
    cases hlook : List.lookup step.intent reg with
    | none => rw [hlook] at h1; simp at h1
    | some agent =>
      simp only [execLoop, hlook] at hcon
      cases hans : agent step.subquery ctx with
      | error e => simp [hans] at hcon
      | ok ans =>
        simp only [hans] at hcon
        cases hrec : execLoop reg rest (i + 1) (ctx ++ renderStep i step.intent ans) with
        | error e =>
          simp only [hrec] at hcon
          have he : e = OrchError.keyError := by
            simpa using hcon
          exact ih (fun s hs => h s (List.mem_cons_of_mem _ hs)) (i + 1)
            (ctx ++ renderStep i step.intent ans) (he ▸ hrec)
        | ok p =>
          obtain ⟨log, fin⟩ := p
          simp [hrec] at hcon

/-- Claim C9: for every step of a validated plan, the registry lookup inside the
execution loop succeeds; the `KeyError` branch at that call site is unreachable. -/
theorem c9_resolve_never_fails (hs hr ha : Handler) (q : String) (raw : List RawStep)
    (i : Nat) (ctx : String) :
    execLoop (mkAgents hs hr ha) (validate q raw) i ctx ≠ Except.error OrchError.keyError :=
  execLoop_no_keyError (mkAgents hs hr ha) (validate q raw)
    (fun s hs_mem => lookup_mkAgents_isSome hs hr ha s.intent (validate_intent_mem q raw s hs_mem))
    i ctx

/-- Witness for C9 at a concrete validated plan containing a repaired unknown intent. -/
theorem c9_witness :
    execLoop (mkAgents (okH "S") (okH "R") (okH "A"))
      (validate "Q" [{ subquery := some "a", intent := some "summarize" }]) 0 ""
      ≠ Except.error OrchError.keyError :=
  c9_resolve_never_fails (okH "S") (okH "R") (okH "A") "Q"
    [{ subquery := some "a", intent := some "summarize" }] 0 ""

/-- Claim C2 (counterexample): a plan whose first step's handler raises: the
loop's registry lookup succeeds, the handler fails, and the whole orchestration
aborts with an error — no degraded `StepResult` is recorded for the failed step
and the second step is never executed, contrary to the claim. -/
theorem c2_counterexample :
    List.lookup "search" (mkAgents failH (okH "R") (okH "A")) = some failH ∧
    failH "a" "" = Except.error () ∧
    execLoop (mkAgents failH (okH "R") (okH "A"))
      (validate "Q" [{ subquery := some "a", intent := some "search" },
                     { subquery := some "b", intent := some "retrieve" }]) 0 ""
      = Except.error OrchError.handlerError ∧
    forward (mkAgents failH (okH "R") (okH "A"))
      [{ subquery := some "a", intent := some "search" },
       { subquery := some "b", intent := some "retrieve" }] "Q"
      = Except.error OrchError.handlerError :=
  ⟨rfl, rfl, rfl, rfl⟩

/-- Claim C2 (amended): if the handler invoked for a step fails, the exception
propagates: the execution loop returns an error, records no `StepResult` for
that step, and executes no subsequent step — one failed step aborts the rest of
the plan. -/
theorem c2_handler_failure_propagates (reg : List (String × Handler))
    (step : PlanStep) (rest : List PlanStep) (i : Nat) (ctx : String) (agent : Handler)
    (hlook : List.lookup step.intent reg = some agent)
    (hfail : agent step.subquery ctx = Except.error ()) :
    execLoop reg (step :: rest) i ctx = Except.error OrchError.handlerError := by
  simp only [execLoop, hlook, hfail]

/-- Witness for C2 (amended) at a concrete failing step. -/
theorem c2_witness :
    execLoop (mkAgents failH (okH "R") (okH "A"))
      [{ subquery := "a", intent := "search" }] 5 "prior context"
      = Except.error OrchError.handlerError :=
  c2_handler_failure_propagates (mkAgents failH (okH "R") (okH "A"))
    { subquery := "a", intent := "search" } [] 5 "prior context" failH rfl rfl

/-- Unfolding `concatRenders` over a cons cell. -/
lemma concatRenders_cons (p : StepResult × String) (log : List (StepResult × String)) :
    concatRenders (p :: log) =
      renderStep p.1.step_id p.1.step.intent p.1.answer ++ concatRenders log := rfl

/-- Context-threading invariant of the execution loop: on a successful run
started with context `ctx`, the ghost context snapshot recorded for the step at
position `j` of the log equals `ctx` followed by the renderings of the `j`
earlier steps, in order. -/
lemma execLoop_ok_ctx (reg : List (String × Handler)) (steps : List PlanStep) :
    ∀ (i : Nat) (ctx : String) (log : List (StepResult × String)) (fin : String),
      execLoop reg steps i ctx = Except.ok (log, fin) →
      ∀ (j : Nat) (r : StepResult) (c : String), log.get? j = some (r, c) →
        c = ctx ++ concatRenders (log.take j) := by
  induction steps with
  | nil =>
    intro i ctx log fin h j r c hj
    simp only [execLoop, Except.ok.injEq, Prod.mk.injEq] at h
    obtain ⟨hl, _⟩ := h
    subst hl
    simp at hj
  | cons step rest ih =>
    intro i ctx log fin h j r c hj
    cases hlook : List.lookup step.intent reg with
    | none => simp [execLoop, hlook] at h
    | some agent =>
      simp only [execLoop, hlook] at h
      cases hans : agent step.subquery ctx with
      | error e => simp [hans] at h
      | ok ans =>
        simp only [hans] at h
        cases hrec : execLoop reg rest (i + 1) (ctx ++ renderStep i step.intent ans) with
        | error e => simp [hrec] at h
        | ok p =>
          obtain ⟨log2, fin2⟩ := p
          simp only [hrec, Except.ok.injEq, Prod.mk.injEq] at h
          obtain ⟨hl, _⟩ := h
          subst hl
          cases j with
          | zero =>
            simp only [List.get?, Option.some.injEq, Prod.mk.injEq] at hj
            obtain ⟨_, hc⟩ := hj
            subst hc
            exact (String.append_empty ctx).symm
          | succ j2 =>
            simp only [List.get?] at hj
            rw [ih (i + 1) (ctx ++ renderStep i step.intent ans) log2 fin2 hrec j2 r c hj]
            simp only [List.take_succ_cons, concatRenders_cons]
            rw [String.append_assoc]

/-- Claim C3: on a successful run of a validated plan, the context passed to the
handler of step `j` equals exactly the concatenation, in order, of the labeled
renderings of the results of steps `0..j-1` — hence it contains each of them as
substrings in order, it is empty at `j = 0` (`concatRenders [] = ""`), and it
contains no content from any step `≥ j`; the context is built only by the
loop's own append. -/
theorem c3_context_threading (reg : List (String × Handler)) (q : String)
    (raw : List RawStep) (log : List (StepResult × String)) (fin : String)
    (h : execLoop reg (validate q raw) 0 "" = Except.ok (log, fin))
    (j : Nat) (r : StepResult) (c : String) (hj : log.get? j = some (r, c)) :
    c = concatRenders (log.take j) := by
  have hx := execLoop_ok_ctx reg (validate q raw) 0 "" log fin h j r c hj
  rwa [String.empty_append] at hx

/-- A concrete two-step run used to instantiate the context-threading theorem. -/
def c3log : List (StepResult × String) :=
  [({ step_id := 0, step := { subquery := "a", intent := "search" }, answer := "S: a" }, ""),
   ({ step_id := 1, step := { subquery := "b", intent := "retrieve" }, answer := "R: b" },
    "\nStep 0 (search): S: a\n")]

/-- Witness for C3: in the concrete two-step run, the context passed to step 1
is exactly the rendering of step 0's result. -/
theorem c3_witness :
    ("\nStep 0 (search): S: a\n" : String) = concatRenders (c3log.take 1) :=
  c3_context_threading (mkAgents (okH "S") (okH "R") (okH "A")) "Q"
    [{ subquery := some "a", intent := some "search" },
     { subquery := some "b", intent := some "retrieve" }]
    c3log "\nStep 0 (search): S: a\n\nStep 1 (retrieve): R: b\n" rfl
    1 { step_id := 1, step := { subquery := "b", intent := "retrieve" }, answer := "R: b" }
    "\nStep 0 (search): S: a\n" rfl

/-- A concrete two-result log (scenario B of the spec: a search step then a
retrieve step, answering "S1" and "S2"). -/
def c4log : List StepResult :=
  [{ step_id := 0, step := { subquery := "find P0 tickets", intent := "search" }, answer := "S1" },
   { step_id := 1, step := { subquery := "get most critical", intent := "retrieve" }, answer := "S2" }]

/-- Claim C4 (counterexample): with two results, synthesis wraps each uppercase
intent label in double asterisks, so the final answer is not the bare
`"SEARCH: S1\n\nRETRIEVE: S2"` rendering the claim states. -/
theorem c4_counterexample :
    synthesize c4log = "**SEARCH**: S1\n\n**RETRIEVE**: S2" ∧
    synthesize c4log ≠ "SEARCH: S1\n\nRETRIEVE: S2" := by
  decide

/-- Claim C4 (amended): for every result log with two or more results, synthesis
renders each result in plan order as `"**<INTENT-UPPERCASE>**: <answer>"` (the
uppercase intent label wrapped in double asterisks) and joins the renderings
with a blank-line separator, preserving plan order: the rendering list is the
image of the result log under the per-result renderer, never reordered. -/
theorem c4_multi_step_rendering (rs : List StepResult) (h : 2 ≤ rs.length) :
    synthesize rs =
      String.intercalate "\n\n"
        (rs.map fun sr => "**" ++ strUpper sr.step.intent ++ "**: " ++ sr.answer) := by
  match rs with
  | [] => simp at h
  | [r] => simp at h
  | a :: b :: t => rfl

/-- Witness for C4 (amended) at the concrete two-result log. -/
theorem c4_witness :
    synthesize c4log =
      String.intercalate "\n\n"
        (c4log.map fun sr => "**" ++ strUpper sr.step.intent ++ "**: " ++ sr.answer) :=
  c4_multi_step_rendering c4log (by decide)

/-- Claim C5: for a validated plan of exactly one step, the final answer of the
orchestration equals that step's handler answer character-for-character, with no
label or other decoration, and the result log holds exactly that one result. -/
theorem c5_single_step_verbatim (reg : List (String × Handler)) (raw : List RawStep)
    (q : String) (s : PlanStep) (agent : Handler) (ans : String)
    (hplan : validate q raw = [s])
    (hlook : List.lookup s.intent reg = some agent)
    (hans : agent s.subquery "" = Except.ok ans) :
    forward reg raw q =
      Except.ok { answer := ans, plan := [s], step_results := [{ step_id := 0, step := s, answer := ans }] } := by
  simp only [forward, hplan, execLoop, hlook, hans]
  rfl

/-- Witness for C5: a concrete one-step plan whose handler answers "S: x". -/
theorem c5_witness :
    forward (mkAgents (okH "S") (okH "R") (okH "A"))
        [{ subquery := some "x", intent := some "search" }] "Q" =
      Except.ok { answer := "S: x",
                  plan := [{ subquery := "x", intent := "search" }],
                  step_results := [{ step_id := 0,
                                     step := { subquery := "x", intent := "search" },
                                     answer := "S: x" }] } :=
  c5_single_step_verbatim (mkAgents (okH "S") (okH "R") (okH "A"))
    [{ subquery := some "x", intent := some "search" }] "Q"
    { subquery := "x", intent := "search" } (okH "S") "S: x" rfl rfl rfl
